import Mathlib

/-!
Shallow embedding of the KrushiMitra marketplace backend
(src/application.py, src/database.py) for checking the specification
claims about its authentication gate, user-directory reconciliation,
upload resolver and resource CRUD authorization.

Modelling conventions:
* SQLAlchemy rows become Lean structures; the users and resources tables
  become lists scanned in order (the `.first()` of an unordered query is
  modelled as `List.find?`).
* The Flask session is an `Option Nat` holding the local user id.
* The Firebase verifier (`auth.verify_id_token`) is an abstract function
  `String → Option String` passed as a parameter; each model function
  also reports how many times it invoked the verifier.
* `db.session.commit()` outcomes are supplied by boolean parameters; a
  failed commit raises, is caught by the surrounding handler, rolls the
  database back and produces the 500 response the handler returns.
-/

namespace KrushiMitra

/-- Embeds the `User` model of src/database.py (timestamps omitted;
no claim mentions them). -/
structure User where
  id : Nat
  firebase_uid : String
  email : String
  name : String
  phone : String
  location : String
  language_preference : String
deriving DecidableEq

/-- The users table together with the id the next inserted row receives. -/
structure UserDB where
  users : List User
  nextId : Nat
deriving DecidableEq

/-- Predicate of the OR-lookup
`User.query.filter((User.email == email) | (User.firebase_uid == firebase_uid))`
used by `register` (line 241). -/
def regFind (email fuid : String) (u : User) : Bool :=
  u.email == email || u.firebase_uid == fuid

/-- `User.query.filter((User.email == email) | (User.firebase_uid == fuid)).first()`. -/
def UserDB.findMatch (db : UserDB) (email fuid : String) : Option User :=
  db.users.find? (regFind email fuid)

/-- Same OR-lookup but with `data.get('email')`, which may be absent
(`api_login`, lines 326-327); comparing a column against a missing value
matches no row. -/
def UserDB.findMatchOpt (db : UserDB) (email? : Option String) (fuid : String) : Option User :=
  db.users.find? (fun u =>
    (match email? with
     | some e => u.email == e
     | none => false) || u.firebase_uid == fuid)

/-- `User.query.filter_by(firebase_uid=firebase_uid).first()` (line 148). -/
def UserDB.findByFirebaseUid (db : UserDB) (fuid : String) : Option User :=
  db.users.find? (fun u => u.firebase_uid == fuid)

/-- In-place reconciliation `existing_user.firebase_uid = firebase_uid`
followed by commit (lines 244-246 and 337-340): the row with the given id
gets the presented external id. -/
def UserDB.updateUid (db : UserDB) (targetId : Nat) (fuid : String) : UserDB :=
  { db with users := db.users.map (fun u =>
      if u.id = targetId then { u with firebase_uid := fuid } else u) }

/-! ## Auth Gate: `login_required` (src/application.py lines 129-162) -/

/-- The rejection categories the gate can produce, matching the three
rejection branches of `login_required`. -/
inductive Rejection
  | unauthenticated
  | invalidCredential
  | unknownUser
deriving DecidableEq

/-- Outcome of the gate before response shaping. -/
inductive AuthDecision
  | ok (uid : Nat)
  | reject (r : Rejection)
deriving DecidableEq

/-- The transport-level response: a JSON error, a redirect to the login
page, or proceeding into the wrapped handler with the resolved user id. -/
inductive AuthResponse
  | jsonError (message : String) (status : Nat)
  | redirectLogin
  | proceed (uid : Nat)
deriving DecidableEq

/-- Response shaping per branch: JSON error when
`request.is_json or request.path.startswith('/api/')` (collapsed into
`isApi`), redirect otherwise (lines 137-139, 150-152, 157-159). -/
def shapeRejection (isApi : Bool) : Rejection → AuthResponse
  | .unauthenticated =>
      if isApi then .jsonError "Authentication required" 401 else .redirectLogin
  | .invalidCredential =>
      if isApi then .jsonError "Invalid authentication token" 401 else .redirectLogin
  | .unknownUser =>
      if isApi then .jsonError "User not found" 404 else .redirectLogin

/-- Full observable result of one pass through the gate. -/
structure AuthResult where
  decision : AuthDecision
  response : AuthResponse
  sessionAfter : Option Nat
  verifierCalls : Nat
deriving DecidableEq

/-- Python `s.startswith(tag)`, computed on the character sequences
(kept executable down to the kernel, unlike the byte-position based
library function). -/
def pyStartsWith (s tag : String) : Bool :=
  tag.toList.isPrefixOf s.toList

/-- Python `not s.strip()`: every character is whitespace (in
particular the empty string is blank). -/
def isBlank (s : String) : Bool :=
  s.toList.all Char.isWhitespace

/-- The header tag checked by `auth_header.startswith('Bearer ')`. -/
def bearerTag : String := "Bearer "

/-- Token extraction `auth_header.split('Bearer ')[1]` (line 143):
the text between the first and the second occurrence of the tag (for a
well-formed header, everything after the tag). -/
def extractToken (h : String) : String :=
  (h.splitOn bearerTag).getD 1 ""

/-- Embeds the `login_required` decorator body (lines 131-161).
`verify` is `auth.verify_id_token` composed with the `uid` field access
(`none` models a verification exception or a missing uid claim). -/
def login_required (verify : String → Option String) (db : UserDB)
    (isApi : Bool) (sess : Option Nat) (authHeader : Option String) : AuthResult :=
  match sess with
  | some uid =>
      { decision := .ok uid, response := .proceed uid,
        sessionAfter := some uid, verifierCalls := 0 }
  | none =>
    match authHeader with
    | none =>
        { decision := .reject .unauthenticated,
          response := shapeRejection isApi .unauthenticated,
          sessionAfter := none, verifierCalls := 0 }
    | some h =>
      if pyStartsWith h bearerTag then
        match verify (extractToken h) with
        | none =>
            { decision := .reject .invalidCredential,
              response := shapeRejection isApi .invalidCredential,
              sessionAfter := none, verifierCalls := 1 }
        | some fuid =>
          match db.findByFirebaseUid fuid with
          | none =>
              { decision := .reject .unknownUser,
                response := shapeRejection isApi .unknownUser,
                sessionAfter := none, verifierCalls := 1 }
          | some u =>
              { decision := .ok u.id, response := .proceed u.id,
                sessionAfter := some u.id, verifierCalls := 1 }
      else
        { decision := .reject .unauthenticated,
          response := shapeRejection isApi .unauthenticated,
          sessionAfter := none, verifierCalls := 0 }

/-! ## User Directory: `register` (lines 218-284) and `api_login` (lines 286-372) -/

/-- Observable directory events, in execution order: a database commit
that succeeded, a commit that raised, and the write
`session['user_id'] = ...`. -/
inductive DirEvent
  | commitOk
  | commitFail
  | sessionWrite (uid : Nat)
deriving DecidableEq

/-- JSON result of the register/login endpoints: success carries the
returned user id. -/
inductive ApiResult
  | success (uid : Nat)
  | failure (message : String) (status : Nat)
deriving DecidableEq

/-- Result of one `register` or `api_login` call: the HTTP-level result,
the database and session after the call, and the ordered event trace. -/
structure RegisterOutcome where
  result : ApiResult
  db : UserDB
  session : Option Nat
  events : List DirEvent
deriving DecidableEq

/-- Profile fields taken from the request body by `register`
(lines 262-265; the defaulting of absent fields happens at request
parsing and is irrelevant to the claims). -/
structure Profile where
  name : String
  phone : String
  location : String
  language : String
deriving DecidableEq

/-- The `User(...)` constructed by `register` at lines 259-266. -/
def mkNewUser (db : UserDB) (email fuid : String) (p : Profile) : User :=
  { id := db.nextId, firebase_uid := fuid, email := email,
    name := p.name, phone := p.phone, location := p.location,
    language_preference := p.language }

/-- Embeds the `register` endpoint body after token verification
(lines 240-284). `fuid` is the verified external subject id,
`commitOk` tells whether the (single) `db.session.commit()` the taken
branch performs succeeds; a raised commit is caught by the outer
handler, which rolls back and answers 500 (lines 282-284). -/
def register (commitOk : Bool) (db : UserDB) (sess : Option Nat)
    (email fuid : String) (p : Profile) : RegisterOutcome :=
  match db.findMatch email fuid with
  | some existing =>
    if existing.firebase_uid ≠ fuid then
      if commitOk then
        { result := .success existing.id,
          db := db.updateUid existing.id fuid,
          session := some existing.id,
          events := [.commitOk, .sessionWrite existing.id] }
      else
        { result := .failure "database error" 500,
          db := db, session := sess, events := [.commitFail] }
    else
      { result := .success existing.id, db := db,
        session := some existing.id,
        events := [.sessionWrite existing.id] }
  | none =>
    if commitOk then
      { result := .success (mkNewUser db email fuid p).id,
        db := ⟨db.users ++ [mkNewUser db email fuid p], db.nextId + 1⟩,
        session := some (mkNewUser db email fuid p).id,
        events := [.commitOk, .sessionWrite (mkNewUser db email fuid p).id] }
    else
      { result := .failure "database error" 500,
        db := db, session := sess, events := [.commitFail] }

/-- Embeds the `api_login` endpoint body after token verification
(lines 325-365): OR-lookup with the optional request email, 404 when no
row matches, in-place reconciliation committed before the session write,
a reconciliation-commit failure rolled back into a 500 with the session
untouched (lines 337-349). -/
def api_login (commitOk : Bool) (db : UserDB) (sess : Option Nat)
    (email? : Option String) (fuid : String) : RegisterOutcome :=
  match db.findMatchOpt email? fuid with
  | none =>
      { result := .failure "User not found. Please register first." 404,
        db := db, session := sess, events := [] }
  | some user =>
    if user.firebase_uid ≠ fuid then
      if commitOk then
        { result := .success user.id,
          db := db.updateUid user.id fuid,
          session := some user.id,
          events := [.commitOk, .sessionWrite user.id] }
      else
        { result := .failure "Failed to update user data" 500,
          db := db, session := sess, events := [.commitFail] }
    else
      { result := .success user.id, db := db,
        session := some user.id,
        events := [.sessionWrite user.id] }

/-! ## Upload Resolver: the image-upload section of `create_resource`
(lines 566-667) -/

/-- `ALLOWED_EXTENSIONS` (line 124). -/
def ALLOWED_EXTENSIONS : List String := ["png", "jpg", "jpeg", "gif", "webp"]

/-- `allowed_file` (lines 126-127):
a dot is present and the part after the last dot, lowercased, is an
allowed extension (`filename.rsplit('.', 1)[1]`). -/
def allowed_file (filename : String) : Bool :=
  filename.toList.contains '.' &&
    ALLOWED_EXTENSIONS.contains
      (String.mk (((filename.toList.splitOn '.').getLastD filename.toList).map Char.toLower))

/-- `MAX_CONTENT_LENGTH` (line 83): 16 MiB. -/
def MAX_CONTENT_LENGTH : Nat := 16 * 1024 * 1024

/-- One multipart file: werkzeug filename, declared content type, and
the byte size measured by the seek/tell at lines 585-587. -/
structure FileUpload where
  filename : String
  content_type : String
  size : Nat
deriving DecidableEq

/-- Deployment and collaborator state the upload section consults:
whether `s3_client` was configured at startup (line 101-102), the
`VERCEL` flag (line 580), whether `head_bucket` succeeds (line 606),
which upload attempt succeeds (line 616-626), and whether `file.save`
succeeds (line 653). -/
structure StorageEnv where
  s3Configured : Bool
  isVercel : Bool
  bucketReachable : Bool
  attemptSucceeds : Nat → Bool
  localSaveOk : Bool
  bucket : String
  region : String

/-- Outcome of the upload section: either the `image_url` the resource
will be created with, or the early error response returned. -/
inductive UploadOutcome
  | ok (image_url : String)
  | err (message : String) (status : Nat)
deriving DecidableEq

/-- Observable trace of the upload section: outcome plus the number of
object-storage network calls made and whether a local write was
attempted. -/
structure UploadTrace where
  outcome : UploadOutcome
  headBucketCalls : Nat
  uploadAttempts : Nat
  localWriteAttempted : Bool
deriving DecidableEq

/-- The retry loop at lines 615-639: attempts are tried in order
starting at `start` with `fuel` attempts left; returns whether one
succeeded and how many attempts were made. -/
def uploadRetry (ok : Nat → Bool) : Nat → Nat → Bool × Nat
  | _, 0 => (false, 0)
  | start, fuel + 1 =>
    if ok start then (true, 1)
    else
      let r := uploadRetry ok (start + 1) fuel
      (r.1, r.2 + 1)

/-- The fixed placeholder URL (lines 507, 571, 667, 713). -/
def placeholderUrl : String := "/static/images/placeholder.svg"

/-- Embeds the image-upload section of `create_resource`
(lines 570-667). `secure` stands for werkzeug `secure_filename`
(a collaborator) and `token` for the generated `uuid.uuid4()` string in
`unique_filename` (lines 576-577). -/
def create_resource_image (env : StorageEnv) (secure : String → String)
    (token : String) (file? : Option FileUpload) : UploadTrace :=
  match file? with
  | none =>
      { outcome := .ok placeholderUrl, headBucketCalls := 0,
        uploadAttempts := 0, localWriteAttempted := false }
  | some file =>
    if file.filename ≠ "" && allowed_file file.filename then
      let unique_filename := token ++ "_" ++ secure file.filename
      if env.s3Configured then
        if file.size > MAX_CONTENT_LENGTH then
          { outcome := .err "File too large. Maximum size is 16.0MB" 413,
            headBucketCalls := 0, uploadAttempts := 0, localWriteAttempted := false }
        else if !(pyStartsWith file.content_type "image/") then
          { outcome := .err "Invalid file type. Only images are allowed." 415,
            headBucketCalls := 0, uploadAttempts := 0, localWriteAttempted := false }
        else if !env.bucketReachable then
          { outcome := .err "Storage configuration error" 500,
            headBucketCalls := 1, uploadAttempts := 0, localWriteAttempted := false }
        else
          let r := uploadRetry env.attemptSucceeds 0 3
          if r.1 then
            { outcome := .ok ("https://" ++ env.bucket ++ ".s3." ++ env.region
                ++ ".amazonaws.com/" ++ unique_filename),
              headBucketCalls := 1, uploadAttempts := r.2, localWriteAttempted := false }
          else
            { outcome := .err "Failed to upload image" 500,
              headBucketCalls := 1, uploadAttempts := r.2, localWriteAttempted := false }
      else if !env.isVercel then
        if env.localSaveOk then
          { outcome := .ok ("/static/uploads/" ++ unique_filename),
            headBucketCalls := 0, uploadAttempts := 0, localWriteAttempted := true }
        else
          { outcome := .err "Failed to save image" 500,
            headBucketCalls := 0, uploadAttempts := 0, localWriteAttempted := true }
      else
        { outcome := .err "Image upload not available - S3 not configured" 500,
          headBucketCalls := 0, uploadAttempts := 0, localWriteAttempted := false }
    else
      { outcome := .ok placeholderUrl, headBucketCalls := 0,
        uploadAttempts := 0, localWriteAttempted := false }

/-! ## Image-URL read-back validation (lines 504-512, 556, 710-717) -/

/-- `os.path.join(application.root_path, image_url.lstrip('/'))`
(lines 510, 715). -/
def staticFilePath (rootPath url : String) : String :=
  rootPath ++ "/" ++ String.mk (url.toList.dropWhile (fun c => c = '/'))

/-- The image URL emitted for one resource by `get_resources`
(lines 505-512): a missing or blank stored URL becomes the placeholder;
a `/static/` URL whose backing file does not exist becomes the
placeholder; anything else is passed through. `fsExists` stands for
`os.path.exists`. -/
def get_resources_image_url (fsExists : String → Bool) (rootPath : String)
    (stored : Option String) : String :=
  match stored with
  | none => placeholderUrl
  | some url =>
    if isBlank url then placeholderUrl
    else if pyStartsWith url "/static/" then
      if fsExists (staticFilePath rootPath url) then url else placeholderUrl
    else url

/-- The image URL emitted for one resource by `get_resource_detail`
(lines 711-717); the extra `isinstance(image_url, str)` test is a no-op
under the typed model. -/
def get_resource_detail_image_url (fsExists : String → Bool) (rootPath : String)
    (stored : Option String) : String :=
  match stored with
  | none => placeholderUrl
  | some url =>
    if isBlank url then placeholderUrl
    else if pyStartsWith url "/static/" then
      if fsExists (staticFilePath rootPath url) then url else placeholderUrl
    else url

/-- The image URL emitted for one resource by `get_my_resources`
(line 556): the stored value is serialized verbatim, with no existence
check and no placeholder fallback. -/
def get_my_resources_image_url (stored : Option String) : Option String :=
  stored

/-! ## Resource CRUD: `update_resource` (lines 746-773) and
`delete_resource` (lines 775-794) -/

/-- Embeds the `Resource` model of src/database.py (timestamps omitted;
the float columns price and rating are modelled over Int, which no
claim distinguishes from floats). -/
structure Resource where
  id : Nat
  owner_id : Nat
  name : String
  category : String
  description : String
  price : Int
  listing_type : String
  condition : String
  age_years : Int
  quality : Int
  image_url : Option String
  location : String
  is_available : Bool
  rating : Int
deriving DecidableEq

/-- The resources table. -/
structure ResourceDB where
  resources : List Resource
deriving DecidableEq

/-- `Resource.query.get(resource_id)`: primary-key lookup. -/
def ResourceDB.getById (db : ResourceDB) (rid : Nat) : Option Resource :=
  db.resources.find? (fun r => r.id == rid)

/-- Result of an update/delete endpoint. -/
inductive RestResult
  | ok (message : String)
  | err (message : String) (status : Nat)
deriving DecidableEq

/-- The JSON body of a PUT to `/api/resources/<id>`: each field is
applied only when present (`if key in data`, lines 760-765). -/
structure UpdatePayload where
  is_available : Option Bool
  price : Option Int
  description : Option String
deriving DecidableEq

/-- Embeds `update_resource` (lines 748-773): 404 when the id matches no
row, 403 when the session user is not the owner, otherwise the present
fields are applied and committed. -/
def update_resource (db : ResourceDB) (sessUid rid : Nat)
    (data : UpdatePayload) : RestResult × ResourceDB :=
  match db.getById rid with
  | none => (.err "Resource not found" 404, db)
  | some r =>
    if r.owner_id ≠ sessUid then
      (.err "Unauthorized" 403, db)
    else
      let r' : Resource :=
        { r with
          is_available := data.is_available.getD r.is_available,
          price := data.price.getD r.price,
          description := data.description.getD r.description }
      (.ok "Resource updated successfully",
       { resources := db.resources.map (fun x => if x.id == rid then r' else x) })

/-- Embeds `delete_resource` (lines 777-794): 404 when the id matches no
row, 403 when the session user is not the owner, otherwise the row is
deleted and the deletion committed. -/
def delete_resource (db : ResourceDB) (sessUid rid : Nat) :
    RestResult × ResourceDB :=
  match db.getById rid with
  | none => (.err "Resource not found" 404, db)
  | some r =>
    if r.owner_id ≠ sessUid then
      (.err "Unauthorized" 403, db)
    else
      (.ok "Resource deleted successfully",
       { resources := db.resources.eraseP (fun x => x.id == rid) })

/-! ## Claims about the Auth Gate -/

/-- C1: a request whose session already carries a local user id is
authenticated with that id without any verifier call (fast path), and a
request with no session user id whose Authorization header is absent or
lacks the Bearer tag is rejected as Unauthenticated, also without any
verifier call. -/
theorem c1_fast_path_and_missing_header
    (verify : String → Option String) (db : UserDB) (isApi : Bool)
    (sess : Option Nat) (hdr : Option String) :
    (∀ uid, sess = some uid →
      (login_required verify db isApi sess hdr).decision = .ok uid ∧
      (login_required verify db isApi sess hdr).verifierCalls = 0) ∧
    (sess = none →
      (hdr = none ∨ ∀ h, hdr = some h → pyStartsWith h bearerTag = false) →
      (login_required verify db isApi sess hdr).decision = .reject .unauthenticated ∧
      (login_required verify db isApi sess hdr).verifierCalls = 0) := by
  constructor
  · intro uid hsess
    subst hsess
    simp [login_required]
  · intro hsess hhdr
    subst hsess
    cases hdr with
    | none => simp [login_required]
    | some h =>
      rcases hhdr with hnone | hbad
      · exact absurd hnone (by simp)
      · have hb := hbad h rfl
        simp [login_required, hb]

/-- Closed instance of C1: fast path at session user 7, and missing
header with no session. -/
theorem c1_fast_path_and_missing_header_witness :
    (login_required (fun _ => none) ⟨[], 1⟩ true (some 7) none).decision =
      AuthDecision.ok 7 ∧
    (login_required (fun _ => none) ⟨[], 1⟩ true none none).decision =
      AuthDecision.reject .unauthenticated := by
  constructor
  · exact ((c1_fast_path_and_missing_header (fun _ => none) ⟨[], 1⟩ true
      (some 7) none).1 7 rfl).1
  · exact ((c1_fast_path_and_missing_header (fun _ => none) ⟨[], 1⟩ true
      none none).2 rfl (Or.inl rfl)).1

/-- C4: a verified token whose subject id matches no user is rejected as
UnknownUser with the session unchanged, and more generally every
rejection of the gate leaves the session exactly as it was (only the
success path writes it). -/
theorem c4_rejections_leave_session
    (verify : String → Option String) (db : UserDB) (isApi : Bool)
    (sess : Option Nat) (hdr : Option String) :
    (∀ h fuid, sess = none → hdr = some h → pyStartsWith h bearerTag = true →
      verify (extractToken h) = some fuid →
      db.findByFirebaseUid fuid = none →
      (login_required verify db isApi sess hdr).decision = .reject .unknownUser ∧
      (login_required verify db isApi sess hdr).sessionAfter = sess) ∧
    (∀ r, (login_required verify db isApi sess hdr).decision = .reject r →
      (login_required verify db isApi sess hdr).sessionAfter = sess) := by
  constructor
  · intro h fuid hsess hhdr hb hv hfind
    subst hsess; subst hhdr
    simp [login_required, hb, hv, hfind]
  · intro r hrej
    cases sess with
    | some uid => simp [login_required] at hrej
    | none =>
      cases hdr with
      | none => simp [login_required]
      | some h =>
        by_cases hb : pyStartsWith h bearerTag
        · cases hv : verify (extractToken h) with
          | none => simp [login_required, hb, hv]
          | some fuid =>
            cases hfind : db.findByFirebaseUid fuid with
            | none => simp [login_required, hb, hv, hfind]
            | some u => simp [login_required, hb, hv, hfind] at hrej
        · simp [login_required, hb]

/-- Closed instance of C4: a token verifying to subject id F with an
empty user table is rejected as UnknownUser without a session write. -/
theorem c4_rejections_leave_session_witness :
    (login_required (fun _ => some "F") ⟨[], 1⟩ true none
      (some "Bearer tok")).decision = AuthDecision.reject .unknownUser ∧
    (login_required (fun _ => some "F") ⟨[], 1⟩ true none
      (some "Bearer tok")).sessionAfter = none := by
  exact (c4_rejections_leave_session (fun _ => some "F") ⟨[], 1⟩ true none
    (some "Bearer tok")).1 "Bearer tok" "F" rfl rfl (by decide) rfl rfl

/-! ## Claims about the User Directory -/

/-- After reconciling the found row to the presented external id, the
OR-lookup still finds a row with the same local id, now carrying the
presented external id. -/
theorem find?_map_reconcile (users : List User) (email fuid : String) (ex : User)
    (h : users.find? (regFind email fuid) = some ex) :
    ∃ v, (users.map (fun u =>
        if u.id = ex.id then { u with firebase_uid := fuid } else u)).find?
          (regFind email fuid) = some v ∧ v.id = ex.id ∧ v.firebase_uid = fuid := by
  induction users with
  | nil => simp at h
  | cons u rest ih =>
    by_cases hq : regFind email fuid u
    · rw [List.find?_cons_of_pos _ hq] at h
      injection h with h
      subst h
      refine ⟨{ u with firebase_uid := fuid }, ?_, rfl, rfl⟩
      rw [List.map_cons, if_pos rfl]
      exact List.find?_cons_of_pos _ (by simp [regFind])
    · rw [List.find?_cons_of_neg _ (by simpa using hq)] at h
      by_cases hid : u.id = ex.id
      · refine ⟨{ u with firebase_uid := fuid }, ?_, hid, rfl⟩
        rw [List.map_cons, if_pos hid]
        exact List.find?_cons_of_pos _ (by simp [regFind])
      · obtain ⟨v, hv, hvid, hvu⟩ := ih h
        refine ⟨v, ?_, hvid, hvu⟩
        rw [List.map_cons, if_neg hid,
          List.find?_cons_of_neg _ (by simpa using hq)]
        exact hv

/-- A row appended to a table in which nothing matched is what the
lookup finds, provided it matches. -/
theorem find?_append_of_none (l : List User) (p : User → Bool) (a : User)
    (h : l.find? p = none) (ha : p a = true) : (l ++ [a]).find? p = some a := by
  rw [List.find?_append, h]
  simp [List.find?, ha]

/-- C2: when the OR-lookup of registerOrReconcile finds an existing row
whose stored external id differs from the presented one, the row is
updated in place and persisted, the call answers with that existing id
and adds no row; `api_login` performs the same reconciliation before
establishing the session. -/
theorem c2_reconciliation (db : UserDB) (sess sess2 : Option Nat)
    (email fuid : String) (p : Profile) (ex : User)
    (hfind : db.findMatch email fuid = some ex)
    (hne : ex.firebase_uid ≠ fuid) :
    (register true db sess email fuid p).result = .success ex.id ∧
    (register true db sess email fuid p).db = db.updateUid ex.id fuid ∧
    (register true db sess email fuid p).db.users.length = db.users.length ∧
    (∃ v ∈ (register true db sess email fuid p).db.users,
        v.id = ex.id ∧ v.firebase_uid = fuid) ∧
    (api_login true db sess2 (some email) fuid).result = .success ex.id ∧
    (api_login true db sess2 (some email) fuid).db = db.updateUid ex.id fuid ∧
    (api_login true db sess2 (some email) fuid).session = some ex.id := by
  have hmem : ex ∈ db.users := List.mem_of_find?_eq_some hfind
  have hopt : db.findMatchOpt (some email) fuid = some ex := hfind
  have hv : ∃ v ∈ (db.updateUid ex.id fuid).users,
      v.id = ex.id ∧ v.firebase_uid = fuid := by
    refine ⟨{ ex with firebase_uid := fuid }, ?_, rfl, rfl⟩
    have := List.mem_map_of_mem
      (fun u => if u.id = ex.id then { u with firebase_uid := fuid } else u) hmem
    simpa [UserDB.updateUid] using this
  have hdb : (register true db sess email fuid p).db = db.updateUid ex.id fuid := by
    simp [register, hfind, hne]
  refine ⟨?_, hdb, ?_, ?_, ?_, ?_, ?_⟩
  · simp [register, hfind, hne]
  · rw [hdb]; simp [UserDB.updateUid]
  · rw [hdb]; exact hv
  · simp [api_login, hopt, hne]
  · simp [api_login, hopt, hne]
  · simp [api_login, hopt, hne]

/-- Closed instance of C2: one email-only style account reconciled to
external id E1 by both register and api_login. -/
theorem c2_reconciliation_witness :
    (register true
      ⟨[⟨1, "X", "a@x.com", "n", "", "", "en"⟩], 2⟩ none "a@x.com" "E1"
      ⟨"n", "", "", "en"⟩).result = ApiResult.success 1 ∧
    (api_login true
      ⟨[⟨1, "X", "a@x.com", "n", "", "", "en"⟩], 2⟩ none (some "a@x.com")
      "E1").result = ApiResult.success 1 := by
  have h := c2_reconciliation
    ⟨[⟨1, "X", "a@x.com", "n", "", "", "en"⟩], 2⟩ none none "a@x.com" "E1"
    ⟨"n", "", "", "en"⟩ ⟨1, "X", "a@x.com", "n", "", "", "en"⟩
    (by decide) (by decide)
  exact ⟨h.1, h.2.2.2.2.1⟩

/-- C3: registerOrReconcile is idempotent: whenever a first call
answered with user id i, a second call with the same email and external
id (on the database and session the first call left) answers with the
same id i and leaves the user table exactly as it was, creating no
second record; the second call needs no commit, behaving as a login. -/
theorem c3_register_idempotent (c1ok c2ok : Bool) (db : UserDB)
    (sess : Option Nat) (email fuid : String) (p : Profile) (i : Nat)
    (h : (register c1ok db sess email fuid p).result = .success i) :
    (register c2ok (register c1ok db sess email fuid p).db
        (register c1ok db sess email fuid p).session email fuid p).result =
      .success i ∧
    (register c2ok (register c1ok db sess email fuid p).db
        (register c1ok db sess email fuid p).session email fuid p).db =
      (register c1ok db sess email fuid p).db := by
  cases hfind : db.findMatch email fuid with
  | some ex =>
    by_cases hne : ex.firebase_uid = fuid
    · have h1 : register c1ok db sess email fuid p =
          { result := .success ex.id, db := db, session := some ex.id,
            events := [.sessionWrite ex.id] } := by
        simp [register, hfind, hne]
      rw [h1] at h ⊢
      injection h with h
      subst h
      simp [register, hfind, hne]
    · cases c1ok with
      | false =>
        have h1 : (register false db sess email fuid p).result =
            .failure "database error" 500 := by
          simp [register, hfind, hne]
        rw [h1] at h
        exact absurd h (by simp)
      | true =>
        have h1 : register true db sess email fuid p =
            { result := .success ex.id, db := db.updateUid ex.id fuid,
              session := some ex.id,
              events := [.commitOk, .sessionWrite ex.id] } := by
          simp [register, hfind, hne]
        rw [h1] at h ⊢
        injection h with h
        subst h
        obtain ⟨v, hv, hvid, hvu⟩ := find?_map_reconcile db.users email fuid ex hfind
        have hfind2 : (db.updateUid ex.id fuid).findMatch email fuid = some v := hv
        simp [register, hfind2, hvu, hvid]
  | none =>
    cases c1ok with
    | false => simp [register, hfind] at h
    | true =>
      have h1 : register true db sess email fuid p =
          { result := .success db.nextId,
            db := ⟨db.users ++ [mkNewUser db email fuid p], db.nextId + 1⟩,
            session := some db.nextId,
            events := [.commitOk, .sessionWrite db.nextId] } := by
        simp [register, hfind, mkNewUser]
      rw [h1] at h ⊢
      injection h with h
      subst h
      have hfind2 : (UserDB.mk (db.users ++ [mkNewUser db email fuid p])
            (db.nextId + 1)).findMatch email fuid =
          some (mkNewUser db email fuid p) :=
        find?_append_of_none db.users (regFind email fuid) _ hfind
          (by simp [regFind, mkNewUser])
      unfold register
      rw [hfind2]
      simp [mkNewUser]

/-- Closed instance of C3: registering against an empty table creates
user 1, and repeating the call returns the same id with the table
unchanged. -/
theorem c3_register_idempotent_witness :
    (register true
      (register true ⟨[], 1⟩ none "a@x.com" "E1" ⟨"n", "", "", "en"⟩).db
      (register true ⟨[], 1⟩ none "a@x.com" "E1" ⟨"n", "", "", "en"⟩).session
      "a@x.com" "E1" ⟨"n", "", "", "en"⟩).result = ApiResult.success 1 := by
  exact (c3_register_idempotent true true ⟨[], 1⟩ none "a@x.com" "E1"
    ⟨"n", "", "", "en"⟩ 1 (by decide)).1

/-- C9: in every register or api_login execution, a session write is the
last directory event (so every lookup or commit precedes it), happens
only in executions whose commits all succeeded, and the id it stores
belongs to a row of the resulting table; when a commit fails, no session
write happens and both the session and the table are left unchanged. -/
theorem c9_session_write_after_commit (c : Bool) (db : UserDB)
    (sess : Option Nat) (email fuid : String) (p : Profile)
    (email? : Option String) :
    (∀ i, DirEvent.sessionWrite i ∈ (register c db sess email fuid p).events →
        (∃ u ∈ (register c db sess email fuid p).db.users, u.id = i) ∧
        (register c db sess email fuid p).events.getLast? =
          some (.sessionWrite i) ∧
        DirEvent.commitFail ∉ (register c db sess email fuid p).events) ∧
    (DirEvent.commitFail ∈ (register c db sess email fuid p).events →
        (∀ i, DirEvent.sessionWrite i ∉ (register c db sess email fuid p).events) ∧
        (register c db sess email fuid p).session = sess ∧
        (register c db sess email fuid p).db = db) ∧
    (∀ i, DirEvent.sessionWrite i ∈ (api_login c db sess email? fuid).events →
        (∃ u ∈ (api_login c db sess email? fuid).db.users, u.id = i) ∧
        (api_login c db sess email? fuid).events.getLast? =
          some (.sessionWrite i) ∧
        DirEvent.commitFail ∉ (api_login c db sess email? fuid).events) ∧
    (DirEvent.commitFail ∈ (api_login c db sess email? fuid).events →
        (∀ i, DirEvent.sessionWrite i ∉ (api_login c db sess email? fuid).events) ∧
        (api_login c db sess email? fuid).session = sess ∧
        (api_login c db sess email? fuid).db = db) := by
  refine ⟨?_, ?_, ?_, ?_⟩
  · intro i hi
    cases hfind : db.findMatch email fuid with
    | some ex =>
      have hmem : ex ∈ db.users := List.mem_of_find?_eq_some hfind
      by_cases hne : ex.firebase_uid = fuid
      · have hreg : register c db sess email fuid p =
            { result := .success ex.id, db := db, session := some ex.id,
              events := [.sessionWrite ex.id] } := by
          simp [register, hfind, hne]
        rw [hreg] at hi ⊢
        have hieq : i = ex.id := by simpa using hi
        subst hieq
        exact ⟨⟨ex, hmem, rfl⟩, rfl, by simp⟩
      · cases c with
        | false =>
          have hreg : register false db sess email fuid p =
              { result := .failure "database error" 500, db := db,
                session := sess, events := [.commitFail] } := by
            simp [register, hfind, hne]
          rw [hreg] at hi
          simp at hi
        | true =>
          have hreg : register true db sess email fuid p =
              { result := .success ex.id, db := db.updateUid ex.id fuid,
                session := some ex.id,
                events := [.commitOk, .sessionWrite ex.id] } := by
            simp [register, hfind, hne]
          rw [hreg] at hi ⊢
          have hieq : i = ex.id := by simpa using hi
          subst hieq
          have hupd : { ex with firebase_uid := fuid } ∈
              (db.updateUid ex.id fuid).users := by
            have := List.mem_map_of_mem
              (fun u => if u.id = ex.id then { u with firebase_uid := fuid } else u)
              hmem
            simpa [UserDB.updateUid] using this
          exact ⟨⟨{ ex with firebase_uid := fuid }, hupd, rfl⟩, rfl, by simp⟩
    | none =>
      cases c with
      | false =>
        have hreg : register false db sess email fuid p =
            { result := .failure "database error" 500, db := db,
              session := sess, events := [.commitFail] } := by
          simp [register, hfind]
        rw [hreg] at hi
        simp at hi
      | true =>
        have hreg : register true db sess email fuid p =
            { result := .success (mkNewUser db email fuid p).id,
              db := ⟨db.users ++ [mkNewUser db email fuid p], db.nextId + 1⟩,
              session := some (mkNewUser db email fuid p).id,
              events := [.commitOk,
                .sessionWrite (mkNewUser db email fuid p).id] } := by
          simp [register, hfind]
        rw [hreg] at hi ⊢
        have hieq : i = (mkNewUser db email fuid p).id := by simpa using hi
        subst hieq
        exact ⟨⟨mkNewUser db email fuid p, by simp, rfl⟩, rfl, by simp⟩
  · intro hfail
    cases hfind : db.findMatch email fuid with
    | some ex =>
      by_cases hne : ex.firebase_uid = fuid
      · have hreg : register c db sess email fuid p =
            { result := .success ex.id, db := db, session := some ex.id,
              events := [.sessionWrite ex.id] } := by
          simp [register, hfind, hne]
        rw [hreg] at hfail
        simp at hfail
      · cases c with
        | false =>
          have hreg : register false db sess email fuid p =
              { result := .failure "database error" 500, db := db,
                session := sess, events := [.commitFail] } := by
            simp [register, hfind, hne]
          rw [hreg]
          exact ⟨by intro i; simp, rfl, rfl⟩
        | true =>
          have hreg : register true db sess email fuid p =
              { result := .success ex.id, db := db.updateUid ex.id fuid,
                session := some ex.id,
                events := [.commitOk, .sessionWrite ex.id] } := by
            simp [register, hfind, hne]
          rw [hreg] at hfail
          simp at hfail
    | none =>
      cases c with
      | false =>
        have hreg : register false db sess email fuid p =
            { result := .failure "database error" 500, db := db,
              session := sess, events := [.commitFail] } := by
          simp [register, hfind]
        rw [hreg]
        exact ⟨by intro i; simp, rfl, rfl⟩
      | true =>
        have hreg : register true db sess email fuid p =
            { result := .success (mkNewUser db email fuid p).id,
              db := ⟨db.users ++ [mkNewUser db email fuid p], db.nextId + 1⟩,
              session := some (mkNewUser db email fuid p).id,
              events := [.commitOk,
                .sessionWrite (mkNewUser db email fuid p).id] } := by
          simp [register, hfind]
        rw [hreg] at hfail
        simp at hfail
  · intro i hi
    cases hfind : db.findMatchOpt email? fuid with
    | some ex =>
      have hmem : ex ∈ db.users := List.mem_of_find?_eq_some hfind
      by_cases hne : ex.firebase_uid = fuid
      · have hlog : api_login c db sess email? fuid =
            { result := .success ex.id, db := db, session := some ex.id,
              events := [.sessionWrite ex.id] } := by
          simp [api_login, hfind, hne]
        rw [hlog] at hi ⊢
        have hieq : i = ex.id := by simpa using hi
        subst hieq
        exact ⟨⟨ex, hmem, rfl⟩, rfl, by simp⟩
      · cases c with
        | false =>
          have hlog : api_login false db sess email? fuid =
              { result := .failure "Failed to update user data" 500, db := db,
                session := sess, events := [.commitFail] } := by
            simp [api_login, hfind, hne]
          rw [hlog] at hi
          simp at hi
        | true =>
          have hlog : api_login true db sess email? fuid =
              { result := .success ex.id, db := db.updateUid ex.id fuid,
                session := some ex.id,
                events := [.commitOk, .sessionWrite ex.id] } := by
            simp [api_login, hfind, hne]
          rw [hlog] at hi ⊢
          have hieq : i = ex.id := by simpa using hi
          subst hieq
          have hupd : { ex with firebase_uid := fuid } ∈
              (db.updateUid ex.id fuid).users := by
            have := List.mem_map_of_mem
              (fun u => if u.id = ex.id then { u with firebase_uid := fuid } else u)
              hmem
            simpa [UserDB.updateUid] using this
          exact ⟨⟨{ ex with firebase_uid := fuid }, hupd, rfl⟩, rfl, by simp⟩
    | none =>
      have hlog : api_login c db sess email? fuid =
          { result := .failure "User not found. Please register first." 404,
            db := db, session := sess, events := [] } := by
        simp [api_login, hfind]
      rw [hlog] at hi
      simp at hi
  · intro hfail
    cases hfind : db.findMatchOpt email? fuid with
    | some ex =>
      by_cases hne : ex.firebase_uid = fuid
      · have hlog : api_login c db sess email? fuid =
            { result := .success ex.id, db := db, session := some ex.id,
              events := [.sessionWrite ex.id] } := by
          simp [api_login, hfind, hne]
        rw [hlog] at hfail
        simp at hfail
      · cases c with
        | false =>
          have hlog : api_login false db sess email? fuid =
              { result := .failure "Failed to update user data" 500, db := db,
                session := sess, events := [.commitFail] } := by
            simp [api_login, hfind, hne]
          rw [hlog]
          exact ⟨by intro i; simp, rfl, rfl⟩
        | true =>
          have hlog : api_login true db sess email? fuid =
              { result := .success ex.id, db := db.updateUid ex.id fuid,
                session := some ex.id,
                events := [.commitOk, .sessionWrite ex.id] } := by
            simp [api_login, hfind, hne]
          rw [hlog] at hfail
          simp at hfail
    | none =>
      have hlog : api_login c db sess email? fuid =
          { result := .failure "User not found. Please register first." 404,
            db := db, session := sess, events := [] } := by
        simp [api_login, hfind]
      rw [hlog] at hfail
      simp at hfail

/-- Closed instance of C9: the id 1 written to the session by a concrete
successful registration is present in the table the call committed. -/
theorem c9_session_write_after_commit_witness :
    ∃ u ∈ (register true ⟨[], 1⟩ none "a@x.com" "E1"
      ⟨"n", "", "", "en"⟩).db.users, u.id = 1 := by
  exact ((c9_session_write_after_commit true ⟨[], 1⟩ none "a@x.com" "E1"
    ⟨"n", "", "", "en"⟩ none).1 1 (by decide)).1

/-! ## Claims about the Upload Resolver -/

/-- C5: when object storage is configured and the bucket reachability
check fails, the upload fails with the storage-misconfiguration error
(500), no upload is attempted and no local write happens; and in
general a local-disk write is only ever attempted when object storage
is not configured. -/
theorem c5_no_local_fallback (env : StorageEnv) (secure : String → String)
    (token : String) (file : FileUpload)
    (hs3 : env.s3Configured = true) (hb : env.bucketReachable = false)
    (hname : file.filename ≠ "") (hallow : allowed_file file.filename = true)
    (hsz : file.size ≤ MAX_CONTENT_LENGTH)
    (hct : pyStartsWith file.content_type "image/" = true) :
    ((create_resource_image env secure token (some file)).outcome =
        .err "Storage configuration error" 500 ∧
      (create_resource_image env secure token (some file)).uploadAttempts = 0 ∧
      (create_resource_image env secure token (some file)).localWriteAttempted =
        false) ∧
    (∀ (env2 : StorageEnv) (secure2 : String → String) (token2 : String)
        (file? : Option FileUpload),
      (create_resource_image env2 secure2 token2 file?).localWriteAttempted =
        true →
      env2.s3Configured = false) := by
  constructor
  · have hnb : ¬ (MAX_CONTENT_LENGTH < file.size) := Nat.not_lt.mpr hsz
    refine ⟨?_, ?_, ?_⟩ <;>
      simp [create_resource_image, hs3, hb, hname, hallow, hct, hnb]
  · intro env2 secure2 token2 file? hl
    cases hcfg : env2.s3Configured with
    | false => rfl
    | true =>
      exfalso
      cases file? with
      | none => simp [create_resource_image] at hl
      | some f =>
        simp only [create_resource_image, hcfg] at hl
        split_ifs at hl

/-- Closed instance of C5: a valid small PNG upload against a
configured but unreachable bucket. -/
theorem c5_no_local_fallback_witness :
    (create_resource_image ⟨true, false, false, fun _ => true, true, "b", "r"⟩
      (fun s => s) "tok" (some ⟨"x.png", "image/png", 10⟩)).outcome =
      UploadOutcome.err "Storage configuration error" 500 := by
  exact ((c5_no_local_fallback ⟨true, false, false, fun _ => true, true, "b", "r"⟩
    (fun s => s) "tok" ⟨"x.png", "image/png", 10⟩ rfl rfl (by decide) (by decide)
    (by decide) (by decide)).1).1

/-- C6 as stated is false on the code: with object storage not
configured, a file with an allowed extension but declared content type
text/plain is saved to local disk and the upload succeeds, instead of
failing with UnsupportedMediaType; the content-type check sits inside
the object-storage branch only. -/
theorem c6_counterexample :
    (create_resource_image ⟨false, false, true, fun _ => true, true, "b", "r"⟩
      (fun s => s) "tok" (some ⟨"x.png", "text/plain", 10⟩)).outcome =
      UploadOutcome.ok "/static/uploads/tok_x.png" ∧
    pyStartsWith "text/plain" "image/" = false := by
  constructor
  · decide
  · decide

/-- C6 amended: the UnsupportedMediaType (415) rejection of a declared
content type lacking the image prefix applies exactly when object
storage is configured; on the local-disk path only the filename
extension allow-list is enforced and such a file is stored. -/
theorem c6_unsupported_media_s3_only (env : StorageEnv)
    (secure : String → String) (token : String) (file : FileUpload)
    (hname : file.filename ≠ "") (hallow : allowed_file file.filename = true)
    (hsz : file.size ≤ MAX_CONTENT_LENGTH)
    (hct : pyStartsWith file.content_type "image/" = false) :
    (env.s3Configured = true →
      (create_resource_image env secure token (some file)).outcome =
        .err "Invalid file type. Only images are allowed." 415) ∧
    (env.s3Configured = false → env.isVercel = false → env.localSaveOk = true →
      (create_resource_image env secure token (some file)).outcome =
        .ok ("/static/uploads/" ++ (token ++ "_" ++ secure file.filename))) := by
  have hnb : ¬ (MAX_CONTENT_LENGTH < file.size) := Nat.not_lt.mpr hsz
  constructor
  · intro hs3
    simp [create_resource_image, hs3, hname, hallow, hct, hnb]
  · intro hs3 hv hl
    simp [create_resource_image, hs3, hv, hl, hname, hallow]

/-- Closed instance of the amended C6: the same text/plain payload is
rejected with 415 once object storage is configured. -/
theorem c6_unsupported_media_s3_only_witness :
    (create_resource_image ⟨true, false, true, fun _ => true, true, "b", "r"⟩
      (fun s => s) "tok" (some ⟨"x.png", "text/plain", 10⟩)).outcome =
      UploadOutcome.err "Invalid file type. Only images are allowed." 415 := by
  exact (c6_unsupported_media_s3_only
    ⟨true, false, true, fun _ => true, true, "b", "r"⟩ (fun s => s) "tok"
    ⟨"x.png", "text/plain", 10⟩ (by decide) (by decide) (by decide)
    (by decide)).1 rfl

/-- C7 as stated is false on the code: with object storage not
configured, a 20 MiB upload is not rejected with PayloadTooLarge by the
handler; it is saved to local disk and the upload succeeds (the
in-handler size check sits inside the object-storage branch only, and
the 16 MiB limit otherwise lives in the MAX_CONTENT_LENGTH framework
configuration of line 83). -/
theorem c7_counterexample :
    (create_resource_image ⟨false, false, true, fun _ => true, true, "b", "r"⟩
      (fun s => s) "tok"
      (some ⟨"big.png", "image/png", 20 * 1024 * 1024⟩)).outcome =
      UploadOutcome.ok "/static/uploads/tok_big.png" ∧
    20 * 1024 * 1024 > MAX_CONTENT_LENGTH := by
  constructor
  · decide
  · decide

/-- C7 amended: when object storage is configured, an oversize upload
fails with PayloadTooLarge (413) before the bucket reachability check
and before any upload attempt; when object storage is not configured,
no object-storage network call is ever made, but the handler applies no
size check of its own. -/
theorem c7_payload_too_large (env : StorageEnv) (secure : String → String)
    (token : String) (file : FileUpload)
    (hname : file.filename ≠ "") (hallow : allowed_file file.filename = true)
    (hbig : file.size > MAX_CONTENT_LENGTH) :
    (env.s3Configured = true →
      (create_resource_image env secure token (some file)).outcome =
        .err "File too large. Maximum size is 16.0MB" 413 ∧
      (create_resource_image env secure token (some file)).headBucketCalls = 0 ∧
      (create_resource_image env secure token (some file)).uploadAttempts = 0) ∧
    (env.s3Configured = false →
      (create_resource_image env secure token (some file)).headBucketCalls = 0 ∧
      (create_resource_image env secure token (some file)).uploadAttempts = 0) := by
  constructor
  · intro hs3
    refine ⟨?_, ?_, ?_⟩ <;>
      simp [create_resource_image, hs3, hname, hallow, hbig]
  · intro hs3
    constructor <;>
      simp [create_resource_image, hs3, hname, hallow] <;>
      split_ifs <;> rfl

/-- Closed instance of the amended C7: a 20 MiB PNG against configured
object storage fails 413 with zero object-storage calls. -/
theorem c7_payload_too_large_witness :
    (create_resource_image ⟨true, false, true, fun _ => true, true, "b", "r"⟩
      (fun s => s) "tok"
      (some ⟨"big.png", "image/png", 20 * 1024 * 1024⟩)).outcome =
      UploadOutcome.err "File too large. Maximum size is 16.0MB" 413 := by
  exact ((c7_payload_too_large ⟨true, false, true, fun _ => true, true, "b", "r"⟩
    (fun s => s) "tok" ⟨"big.png", "image/png", 20 * 1024 * 1024⟩ (by decide)
    (by decide) (by decide)).1 rfl).1

/-! ## Claims about image-URL read-back and resource authorization -/

/-- C8 as stated is false on the code: the my-resources endpoint
serializes the stored image URL verbatim, so a local-storage URL whose
backing file is gone (here: a filesystem on which nothing exists) is
returned unchanged instead of the placeholder, while the marketplace
listing endpoint substitutes the placeholder for the very same stored
URL. -/
theorem c8_counterexample :
    get_my_resources_image_url (some "/static/uploads/gone.png") =
      some "/static/uploads/gone.png" ∧
    "/static/uploads/gone.png" ≠ placeholderUrl ∧
    get_resources_image_url (fun _ => false) "/app"
      (some "/static/uploads/gone.png") = placeholderUrl := by
  refine ⟨rfl, by decide, by decide⟩

/-- C8 amended: the marketplace listing and the resource detail
endpoints re-validate stored local-storage URLs and substitute the
placeholder when the backing file is missing; the my-resources endpoint
returns the stored URL without validation. -/
theorem c8_local_url_revalidation (fsExists : String → Bool)
    (rootPath url : String)
    (hst : pyStartsWith url "/static/" = true)
    (hmiss : fsExists (staticFilePath rootPath url) = false) :
    get_resources_image_url fsExists rootPath (some url) = placeholderUrl ∧
    get_resource_detail_image_url fsExists rootPath (some url) = placeholderUrl ∧
    get_my_resources_image_url (some url) = some url := by
  refine ⟨?_, ?_, rfl⟩ <;>
  · by_cases hb : isBlank url
    · simp [get_resources_image_url, get_resource_detail_image_url, hb]
    · simp [get_resources_image_url, get_resource_detail_image_url, hb, hst, hmiss]

/-- Closed instance of the amended C8: a dangling local upload URL is
replaced by the placeholder on both validating endpoints and passed
through by the my-resources endpoint. -/
theorem c8_local_url_revalidation_witness :
    get_resources_image_url (fun _ => false) "/app"
      (some "/static/uploads/gone2.png") = placeholderUrl ∧
    get_resource_detail_image_url (fun _ => false) "/app"
      (some "/static/uploads/gone2.png") = placeholderUrl ∧
    get_my_resources_image_url (some "/static/uploads/gone2.png") =
      some "/static/uploads/gone2.png" := by
  exact c8_local_url_revalidation (fun _ => false) "/app"
    "/static/uploads/gone2.png" (by decide) rfl

/-- C10: update and delete requests from an authenticated user who is
not the owner of the targeted resource are rejected with 403
Unauthorized and leave the resources table, and so the targeted row,
entirely unchanged. -/
theorem c10_owner_only_mutation (db : ResourceDB) (uid rid : Nat)
    (data : UpdatePayload) (r : Resource)
    (hfind : db.getById rid = some r) (hown : r.owner_id ≠ uid) :
    update_resource db uid rid data = (.err "Unauthorized" 403, db) ∧
    delete_resource db uid rid = (.err "Unauthorized" 403, db) := by
  constructor <;> simp [update_resource, delete_resource, hfind, hown]

/-- Closed instance of C10: user 3 can neither update nor delete the
resource owned by user 2. -/
theorem c10_owner_only_mutation_witness :
    update_resource
      ⟨[⟨1, 2, "plow", "tools", "", 100, "rent", "good", 0, 5, none, "", true, 0⟩]⟩
      3 1 ⟨some false, some 0, some ""⟩ =
      (RestResult.err "Unauthorized" 403,
       ⟨[⟨1, 2, "plow", "tools", "", 100, "rent", "good", 0, 5, none, "", true, 0⟩]⟩) ∧
    delete_resource
      ⟨[⟨1, 2, "plow", "tools", "", 100, "rent", "good", 0, 5, none, "", true, 0⟩]⟩
      3 1 =
      (RestResult.err "Unauthorized" 403,
       ⟨[⟨1, 2, "plow", "tools", "", 100, "rent", "good", 0, 5, none, "", true, 0⟩]⟩) := by
  exact c10_owner_only_mutation
    ⟨[⟨1, 2, "plow", "tools", "", 100, "rent", "good", 0, 5, none, "", true, 0⟩]⟩
    3 1 ⟨some false, some 0, some ""⟩
    ⟨1, 2, "plow", "tools", "", 100, "rent", "good", 0, 5, none, "", true, 0⟩
    (by decide) (by decide)

end KrushiMitra
